import Mathlib

/-!
# Mount primitives of `libcontainer` (`mount_linux.go`) and the `nsenter` hook

A shallow embedding of the mount/unmount wrappers and of the wrappers around the
detached-mount system calls (`open_tree`, `move_mount`, `fsopen`, `fsmount`,
`fsconfig`).

Modelling conventions.

* The target is linux/amd64: `int`, `uint` and `uintptr` are 64 bits wide.  A Go `int` is
  an `Int`, a Go `uint`/`uintptr` is a `Nat`; conversions between them reduce modulo `2 ^ 64`.
* The kernel is an oracle.  Every wrapper threads the list of kernel calls made so far
  (oldest first); the oracle may answer depending on that history, so repeating a call
  need not give the same answer.
* `unix.Mount`, `unix.Unmount`, `syscall.Syscall`, `syscall.Syscall6` and
  `syscall.BytePtrFromString` live outside the repository; they are the oracle's interface.
* A Go `error` is `Option GoError`, `none` being `nil`.
-/

namespace Libcontainer

/-! ## Machine words -/

/-- Conversion `uintptr(i)` of a Go `int`: two's complement reinterpretation. -/
def uintptrOfInt (i : Int) : Nat := (i % (2 ^ 64 : Int)).toNat

/-- Conversion `uintptr(u)` of a Go `uint`. -/
def uintptrOfUint (u : Nat) : Nat := u % 2 ^ 64

/-- Conversion `int(r)` of a `uintptr`. -/
def intOfUintptr (r : Nat) : Int :=
  if r % 2 ^ 64 < 2 ^ 63 then ((r % 2 ^ 64 : Nat) : Int) else ((r % 2 ^ 64 : Nat) : Int) - 2 ^ 64

/-! ## Errors -/

/-- The type `syscall.Errno` (`type Errno uintptr`). -/
structure Errno where
  code : Nat
deriving DecidableEq, Repr

/-- The constant `syscall.EINVAL`. -/
def EINVAL : Errno := ⟨22⟩

/-- The struct `mountError`: an error from a failed mount or unmount operation.  The wrapped
`err` is the error of `unix.Mount`/`unix.Unmount`, which is always an `Errno`. -/
structure mountError where
  op : String
  source : String
  target : String
  procfd : String
  flags : Nat
  data : String
  err : Errno
deriving DecidableEq, Repr

/-- The non-nil values of the Go interface `error` that the wrappers can return: a bare
`syscall.Errno`, or a pointer to a `mountError`. -/
inductive GoError where
  | errno (e : Errno)
  | mount (m : mountError)
deriving DecidableEq, Repr

/-- The method `(*mountError).Unwrap`. -/
def mountError.Unwrap (e : mountError) : Errno := e.err

/-! ## The kernel oracle -/

/-- An argument of a raw system call: a machine word, or the address of the NUL-terminated
copy of a string. -/
inductive Arg where
  | word (n : Nat)
  | ptr (s : String)
deriving DecidableEq, Repr

/-- One call that crosses into the kernel. -/
inductive KCall where
  | Mount (source target fstype : String) (flags : Nat) (data : String)
  | Unmount (target : String) (flags : Int)
  | Syscall (trap : Nat) (a1 a2 a3 : Arg)
  | Syscall6 (trap : Nat) (a1 a2 a3 a4 a5 a6 : Arg)
deriving DecidableEq, Repr

/-- The triple `(r1, r2, err)` returned by `syscall.Syscall` and `syscall.Syscall6`. -/
structure RawResult where
  r1 : Nat
  r2 : Nat
  e1 : Nat
deriving DecidableEq, Repr

/-- The kernel as an oracle: given the calls made so far and the next call, `unixErr` is the
`error` of `unix.Mount`/`unix.Unmount` and `raw` the result triple of a raw system call. -/
structure Kernel where
  unixErr : List KCall → KCall → Option Errno
  raw : List KCall → KCall → RawResult

/-- The call `unix.Mount(source, target, fstype, flags, data)`. -/
def unixMount (k : Kernel) (source target fstype : String) (flags : Nat) (data : String)
    (h : List KCall) : Option Errno × List KCall :=
  (k.unixErr h (KCall.Mount source target fstype flags data),
   h ++ [KCall.Mount source target fstype flags data])

/-- The call `unix.Unmount(target, flags)`. -/
def unixUnmount (k : Kernel) (target : String) (flags : Int)
    (h : List KCall) : Option Errno × List KCall :=
  (k.unixErr h (KCall.Unmount target flags), h ++ [KCall.Unmount target flags])

/-- The call `syscall.Syscall(trap, a1, a2, a3)`. -/
def Syscall (k : Kernel) (trap : Nat) (a1 a2 a3 : Arg)
    (h : List KCall) : RawResult × List KCall :=
  (k.raw h (KCall.Syscall trap a1 a2 a3), h ++ [KCall.Syscall trap a1 a2 a3])

/-- The call `syscall.Syscall6(trap, a1, a2, a3, a4, a5, a6)`. -/
def Syscall6 (k : Kernel) (trap : Nat) (a1 a2 a3 a4 a5 a6 : Arg)
    (h : List KCall) : RawResult × List KCall :=
  (k.raw h (KCall.Syscall6 trap a1 a2 a3 a4 a5 a6), h ++ [KCall.Syscall6 trap a1 a2 a3 a4 a5 a6])

/-- The string holds a NUL byte. -/
def hasNul (s : String) : Prop := Char.ofNat 0 ∈ s.data

instance (s : String) : Decidable (hasNul s) := by
  unfold hasNul; infer_instance

/-- The function `syscall.BytePtrFromString`: `EINVAL` when the string holds a NUL byte,
otherwise the address of its NUL-terminated copy. -/
def BytePtrFromString (s : String) : Except Errno Arg :=
  if hasNul s then Except.error EINVAL else Except.ok (Arg.ptr s)

/-- System call numbers `unix.SYS_OPEN_TREE` .. `unix.SYS_FSMOUNT` (linux/amd64). -/
def SYS_OPEN_TREE : Nat := 428
def SYS_MOVE_MOUNT : Nat := 429
def SYS_FSOPEN : Nat := 430
def SYS_FSCONFIG : Nat := 431
def SYS_FSMOUNT : Nat := 432

/-! ## The wrappers -/

/-- The function `mount`: a `unix.Mount` wrapper.  If `procfd` is not empty it is used instead
of `target`, and `target` only adds context to an error. -/
def mount (k : Kernel) (source target procfd fstype : String) (flags : Nat) (data : String)
    (h : List KCall) : Option GoError × List KCall :=
  let dst := if procfd ≠ "" then procfd else target
  match unixMount k source dst fstype flags data h with
  | (some err, h1) =>
    (some (GoError.mount
      { op := "mount", source := source, target := target, procfd := procfd,
        flags := flags, data := data, err := err }), h1)
  | (none, h1) => (none, h1)

/-- The function `unmount`: a `unix.Unmount` wrapper. -/
def unmount (k : Kernel) (target : String) (flags : Int)
    (h : List KCall) : Option GoError × List KCall :=
  match unixUnmount k target flags h with
  | (some err, h1) =>
    (some (GoError.mount
      { op := "unmount", source := "", target := target, procfd := "",
        flags := uintptrOfInt flags, data := "", err := err }), h1)
  | (none, h1) => (none, h1)

/-- The function `moveMount`. -/
def moveMount (k : Kernel) (from_dfd : Int) (fromPathName : String) (to_dfd : Int)
    (toPathName : String) (flags : Nat) (h : List KCall) : Option GoError × List KCall :=
  match BytePtrFromString fromPathName with
  | Except.error e => (some (GoError.errno e), h)
  | Except.ok p0 =>
    match BytePtrFromString toPathName with
    | Except.error e => (some (GoError.errno e), h)
    | Except.ok p1 =>
      match Syscall6 k SYS_MOVE_MOUNT (Arg.word (uintptrOfInt from_dfd)) p0
          (Arg.word (uintptrOfInt to_dfd)) p1 (Arg.word (uintptrOfUint flags)) (Arg.word 0) h with
      | (res, h1) =>
        if res.e1 ≠ 0 then (some (GoError.errno ⟨res.e1⟩), h1) else (none, h1)

/-- The function `openTree`. -/
def openTree (k : Kernel) (dfd : Int) (fileName : String) (flags : Nat)
    (h : List KCall) : (Int × Option GoError) × List KCall :=
  match BytePtrFromString fileName with
  | Except.error e => ((0, some (GoError.errno e)), h)
  | Except.ok p0 =>
    match Syscall6 k SYS_OPEN_TREE (Arg.word (uintptrOfInt dfd)) p0
        (Arg.word (uintptrOfUint flags)) (Arg.word 0) (Arg.word 0) (Arg.word 0) h with
    | (res, h1) =>
      if res.e1 ≠ 0 then ((intOfUintptr res.r1, some (GoError.errno ⟨res.e1⟩)), h1)
      else ((intOfUintptr res.r1, none), h1)

/-- The function `fsOpen`. -/
def fsOpen (k : Kernel) (fstype : String) (flags : Nat)
    (h : List KCall) : (Int × Option GoError) × List KCall :=
  match BytePtrFromString fstype with
  | Except.error e => ((0, some (GoError.errno e)), h)
  | Except.ok p0 =>
    match Syscall k SYS_FSOPEN p0 (Arg.word (uintptrOfUint flags)) (Arg.word 0) h with
    | (res, h1) =>
      if res.e1 ≠ 0 then ((intOfUintptr res.r1, some (GoError.errno ⟨res.e1⟩)), h1)
      else ((intOfUintptr res.r1, none), h1)

set_option linter.unusedVariables false in
/-- The function `fsMount`.  The parameter `mfd` is not used by the body. -/
def fsMount (k : Kernel) (mfd : Int) (flags : Nat) (ms_flags : Nat)
    (h : List KCall) : (Int × Option GoError) × List KCall :=
  match Syscall k SYS_FSMOUNT (Arg.word (uintptrOfUint flags)) (Arg.word (uintptrOfUint ms_flags))
      (Arg.word 0) h with
  | (res, h1) =>
    if res.e1 ≠ 0 then ((intOfUintptr res.r1, some (GoError.errno ⟨res.e1⟩)), h1)
    else ((intOfUintptr res.r1, none), h1)

/-- The function `fsConfig`. -/
def fsConfig (k : Kernel) (fs_fd : Int) (cmd : Int) (key : String) (val : String) (aux : Int)
    (h : List KCall) : Option GoError × List KCall :=
  match BytePtrFromString key with
  | Except.error e => (some (GoError.errno e), h)
  | Except.ok p0 =>
    match BytePtrFromString val with
    | Except.error e => (some (GoError.errno e), h)
    | Except.ok p1 =>
      match Syscall6 k SYS_FSCONFIG (Arg.word (uintptrOfInt fs_fd)) (Arg.word (uintptrOfInt cmd))
          p0 p1 (Arg.word (uintptrOfInt aux)) (Arg.word 0) h with
      | (res, h1) =>
        if res.e1 ≠ 0 then (some (GoError.errno ⟨res.e1⟩), h1) else (none, h1)

/-! ## The error message -/

/-- The digit table `digits` of `strconv`. -/
def digits : String := "0123456789abcdefghijklmnopqrstuvwxyz"

/-- The table lookup `digits[d]`. -/
def digitAt (d : Nat) : Char := digits.data.getD d '0'

/-- The loop of `strconv.formatBits` for base 16: while `u >= 16` the low digit is written in
front of the digits already produced and `u` is shifted right by four bits; the last digit is
`digits[u]`.  The fuel is the room of the output buffer. -/
def formatBits16 : Nat → Nat → List Char → List Char
  | 0, u, acc => digitAt (u % 16) :: acc
  | fuel + 1, u, acc =>
    if u ≥ 16 then formatBits16 fuel (u / 16) (digitAt (u % 16) :: acc)
    else digitAt u :: acc

/-- The call `strconv.FormatUint(u, 16)`; its buffer has room for `64 + 1` bytes. -/
def FormatUint16 (u : Nat) : String := ⟨formatBits16 64 u []⟩

/-- Conversion `uint64(u)` of a `uintptr`. -/
def uint64OfUintptr (u : Nat) : Nat := u % 2 ^ 64

set_option linter.unusedVariables false in
/-- The method `(*mountError).Error`.  The text of the wrapped error, `e.err.Error()`, comes
from the table of the `syscall` package and is the parameter `errText`. -/
def mountError.Error (errText : Errno → String) (e : mountError) : String :=
  let out := e.op ++ " "
  let out := if e.source ≠ "" then out ++ (e.source ++ ":" ++ e.target) else out ++ e.target
  let out := if e.procfd ≠ "" then out ++ (" (via " ++ e.procfd ++ ")") else out
  let out := if e.flags ≠ 0 then out ++ (", flags: 0x" ++ FormatUint16 (uint64OfUintptr e.flags))
    else out
  let out := if e.data ≠ "" then out ++ (", data: " ++ e.data) else out
  out ++ (": " ++ errText e.err)

/-! ## Reading a hexadecimal numeral (used to state what `FormatUint16` produces) -/

/-- A lowercase hexadecimal digit: `0`..`9` or `a`..`f`. -/
def isLowerHexDigit (c : Char) : Bool :=
  (48 ≤ c.toNat && c.toNat ≤ 57) || (97 ≤ c.toNat && c.toNat ≤ 102)

/-- The value of a lowercase hexadecimal digit. -/
def hexDigitValue (c : Char) : Nat :=
  if c.toNat ≤ 57 then c.toNat - 48 else c.toNat - 87

/-- The number a string of hexadecimal digits denotes, most significant digit first. -/
def hexValue (cs : List Char) : Nat :=
  cs.foldl (fun a c => 16 * a + hexDigitValue c) 0

/-- A sample error text table. -/
def sampleErrText (e : Errno) : String :=
  if e.code = 1 then "operation not permitted"
  else if e.code = 22 then "invalid argument"
  else "errno " ++ toString e.code

/-- A kernel that answers every call the same way, whatever the history. -/
def constKernel (e : Option Errno) (r : RawResult) : Kernel :=
  { unixErr := fun _ _ => e, raw := fun _ _ => r }

/-- A kernel whose raw system calls hand back their first argument word as `r1` and never
fail: an oracle whose result depends on the descriptor passed first. -/
def echoKernel : Kernel :=
  { unixErr := fun _ _ => none,
    raw := fun _ c =>
      match c with
      | KCall.Syscall _ (Arg.word n) _ _ => ⟨n, 0, 0⟩
      | KCall.Syscall6 _ (Arg.word n) _ _ _ _ _ => ⟨n, 0, 0⟩
      | _ => ⟨0, 0, 0⟩ }

/-- A kernel without the detached-mount system calls: every raw call fails with errno 38
and the result word `-1`. -/
def enosysKernel : Kernel := constKernel none ⟨2 ^ 64 - 1, 0, 38⟩

/-- A path that holds a NUL byte. -/
def nulPath : String := "/mnt" ++ String.singleton (Char.ofNat 0) ++ "x"

/-- A sample mount failure with every field set. -/
def sampleMountError : mountError :=
  ⟨"mount", "proc", "/proc", "/proc/self/fd/7", 14, "hidepid=2", ⟨1⟩⟩

/-- A sample unmount failure: no source, procfd, flags or data. -/
def sampleUnmountError : mountError := ⟨"unmount", "", "/mnt", "", 0, "", ⟨22⟩⟩

/-- The predicate "the wrapper's error is a structured value": a `mountError`, which records
the operation and its arguments, as opposed to a bare `Errno`. -/
def GoError.isStructured : GoError → Bool
  | GoError.mount _ => true
  | GoError.errno _ => false

/-- The kernel call reports an error: a non-nil `error` for `unix.Mount`/`unix.Unmount`, a
non-zero errno for a raw system call. -/
def reportsError (k : Kernel) (h : List KCall) (c : KCall) : Prop :=
  match c with
  | KCall.Mount _ _ _ _ _ => k.unixErr h c ≠ none
  | KCall.Unmount _ _ => k.unixErr h c ≠ none
  | KCall.Syscall _ _ _ _ => (k.raw h c).e1 ≠ 0
  | KCall.Syscall6 _ _ _ _ _ _ _ => (k.raw h c).e1 ≠ 0

/-- The kernel call of `openTree`. -/
def openTreeCall (dfd : Int) (fileName : String) (flags : Nat) : KCall :=
  KCall.Syscall6 SYS_OPEN_TREE (Arg.word (uintptrOfInt dfd)) (Arg.ptr fileName)
    (Arg.word (uintptrOfUint flags)) (Arg.word 0) (Arg.word 0) (Arg.word 0)

/-- The kernel call of `fsOpen`. -/
def fsOpenCall (fstype : String) (flags : Nat) : KCall :=
  KCall.Syscall SYS_FSOPEN (Arg.ptr fstype) (Arg.word (uintptrOfUint flags)) (Arg.word 0)

/-- The kernel call of `fsMount`. -/
def fsMountCall (flags ms_flags : Nat) : KCall :=
  KCall.Syscall SYS_FSMOUNT (Arg.word (uintptrOfUint flags)) (Arg.word (uintptrOfUint ms_flags))
    (Arg.word 0)

/-- The kernel call of `fsConfig`. -/
def fsConfigCall (fs_fd cmd : Int) (key val : String) (aux : Int) : KCall :=
  KCall.Syscall6 SYS_FSCONFIG (Arg.word (uintptrOfInt fs_fd)) (Arg.word (uintptrOfInt cmd))
    (Arg.ptr key) (Arg.ptr val) (Arg.word (uintptrOfInt aux)) (Arg.word 0)

/-- The kernel call of `moveMount`. -/
def moveMountCall (from_dfd : Int) (fromPathName : String) (to_dfd : Int) (toPathName : String)
    (flags : Nat) : KCall :=
  KCall.Syscall6 SYS_MOVE_MOUNT (Arg.word (uintptrOfInt from_dfd)) (Arg.ptr fromPathName)
    (Arg.word (uintptrOfInt to_dfd)) (Arg.ptr toPathName) (Arg.word (uintptrOfUint flags))
    (Arg.word 0)

/-- The error a raw wrapper derives from the errno `e1` of its system call: nil when `e1` is
zero, else `error(e1)`. -/
def errnoError (e1 : Nat) : Option GoError :=
  if e1 ≠ 0 then some (GoError.errno ⟨e1⟩) else none

/-- One invocation, started after the calls `h`, that ended with the error `err` and the
calls `h2`, made at most one kernel call, and if that call reported an error then `err` is
not nil. -/
def atMostOneCallNoSwallow (k : Kernel) (h : List KCall) (err : Option GoError)
    (h2 : List KCall) : Prop :=
  ∃ calls : List KCall, h2 = h ++ calls ∧ calls.length ≤ 1 ∧
    ∀ c ∈ calls, reportsError k h c → err ≠ none

/-! ## The namespace-entry sequence behind the `nsenter` hook

The package `nsenter` only declares the native helper `nsexec` and calls it from a
constructor; the helper itself is not part of the sources at hand. -/

/-- One step of a namespace-entry plan: joining a namespace or performing a mount. -/
inductive Step where
  | join (ns : Nat)
  | mountOp (spec : Nat)
deriving DecidableEq, Repr

/-- What the entering process does, in the order it does it: it attempts a step, notifies
the controller of a fatal error, signals readiness, or executes the container entrypoint. -/
inductive Event where
  | step (s : Step)
  | fatal
  | ready
  | exec
deriving DecidableEq, Repr

/-- The terminal states of the entering process. -/
inductive Stage where
  | Exec
  | Failed
deriving DecidableEq, Repr

/-- A namespace-entry plan: the namespaces to join and the mounts to perform, each in order. -/
structure Plan where
  joins : List Nat
  mounts : List Nat
deriving DecidableEq, Repr

/-- The steps of a plan in their declared order: every join, then every mount. -/
def Plan.steps (p : Plan) : List Step :=
  p.joins.map Step.join ++ p.mounts.map Step.mountOp

/-- Modelled from the spec: the loop of the native helper `nsexec` over a list of steps,
which is missing from the sources.  The steps are attempted in order, `ok done s` telling
whether step `s` succeeds after the steps `done` were attempted; the first failure aborts.
The result is whether every step succeeded, and the steps attempted. -/
def runSteps (ok : List Step → Step → Bool) : List Step → List Step → Bool × List Step
  | [], done => (true, done)
  | s :: rest, done =>
    if ok done s then runSteps ok rest (done ++ [s]) else (false, done ++ [s])

/-- Modelled from the spec: the native helper `nsexec` run by the constructor hook `init`,
which is missing from the sources.  From `Start` the entering process joins each namespace
of the plan (reaching `NamespacesJoined`), builds each mount of the plan (reaching
`MountTreeBuilt`), signals readiness (`ReadyToExec`) and transfers control to the container
entrypoint (`Exec`); the failure of any step leads to `Failed`, where the controller is
notified. -/
def nsexec (ok : List Step → Step → Bool) (plan : Plan) : Stage × List Event :=
  match runSteps ok (plan.joins.map Step.join) [] with
  | (false, done) => (Stage.Failed, done.map Event.step ++ [Event.fatal])
  | (true, done) =>
    match runSteps ok (plan.mounts.map Step.mountOp) done with
    | (false, done2) => (Stage.Failed, done2.map Event.step ++ [Event.fatal])
    | (true, done2) => (Stage.Exec, done2.map Event.step ++ [Event.ready, Event.exec])

/-- The steps attempted in a run, in order. -/
def executedSteps (tr : List Event) : List Step :=
  tr.filterMap (fun ev => match ev with
    | Event.step s => some s
    | _ => none)

/-- A sample plan: two namespaces to join, then two mounts. -/
def samplePlan : Plan := { joins := [0, 1], mounts := [0, 1] }

/-- A sample outcome: every step succeeds except the first mount. -/
def failFirstMount (_done : List Step) (s : Step) : Bool :=
  decide (s ≠ Step.mountOp 0)

/-! ## Sample runs of the definitions -/

example : nsexec (fun _ _ => true) samplePlan =
    (Stage.Exec, [Event.step (Step.join 0), Event.step (Step.join 1),
      Event.step (Step.mountOp 0), Event.step (Step.mountOp 1), Event.ready, Event.exec]) := by
  decide

example : nsexec failFirstMount samplePlan =
    (Stage.Failed, [Event.step (Step.join 0), Event.step (Step.join 1),
      Event.step (Step.mountOp 0), Event.fatal]) := by
  decide

example : (mount (constKernel (some ⟨1⟩) ⟨0, 0, 0⟩) "proc" "/proc" "" "proc" 14 "" []).1
    = some (GoError.mount ⟨"mount", "proc", "/proc", "", 14, "", ⟨1⟩⟩) := by decide

example : (fsOpen (constKernel none ⟨5, 0, 0⟩) "tmpfs" 1 []).1 = (5, none) := by decide

example : uintptrOfInt (-100) = 2 ^ 64 - 100 := by decide

example : FormatUint16 0x5006 = "5006" := by decide
example : FormatUint16 0xdeadbeef = "deadbeef" := by decide
example : mountError.Error sampleErrText ⟨"mount", "proc", "/proc", "/proc/self/fd/7", 14, "hidepid=2", ⟨1⟩⟩
    = "mount proc:/proc (via /proc/self/fd/7), flags: 0xe, data: hidepid=2: operation not permitted" := by
  decide
example : mountError.Error sampleErrText ⟨"unmount", "", "/mnt", "", 0, "", ⟨22⟩⟩
    = "unmount /mnt: invalid argument" := by
  decide

/-! ## Results on `mount` and `unmount` -/

/-- The function `mount` in one equation: one `unix.Mount` call, whose error is wrapped. -/
theorem mount_eq (k : Kernel) (source target procfd fstype : String) (flags : Nat)
    (data : String) (h : List KCall) :
    mount k source target procfd fstype flags data h =
      ((k.unixErr h (KCall.Mount source (if procfd ≠ "" then procfd else target) fstype flags data)).map
        (fun err => GoError.mount ⟨"mount", source, target, procfd, flags, data, err⟩),
       h ++ [KCall.Mount source (if procfd ≠ "" then procfd else target) fstype flags data]) := by
  unfold mount unixMount
  dsimp only
  cases k.unixErr h (KCall.Mount source (if procfd ≠ "" then procfd else target) fstype flags data)
    <;> rfl

/-- The function `unmount` in one equation: one `unix.Unmount` call, whose error is wrapped. -/
theorem unmount_eq (k : Kernel) (target : String) (flags : Int) (h : List KCall) :
    unmount k target flags h =
      ((k.unixErr h (KCall.Unmount target flags)).map
        (fun err => GoError.mount ⟨"unmount", "", target, "", uintptrOfInt flags, "", err⟩),
       h ++ [KCall.Unmount target flags]) := by
  unfold unmount unixUnmount
  cases k.unixErr h (KCall.Unmount target flags) <;> rfl

/-- C1: `mount` returns nil exactly when the underlying `unix.Mount` call returns no error,
and when that call returns the OS error `e`, `mount` returns a `mountError` with op "mount",
with the source, target, procfd, flags and data given, whose `Unwrap` is `e`. -/
theorem mount_result_contract (k : Kernel) (source target procfd fstype : String) (flags : Nat)
    (data : String) (h : List KCall) :
    ((mount k source target procfd fstype flags data h).1 = none ↔
      (unixMount k source (if procfd ≠ "" then procfd else target) fstype flags data h).1 = none) ∧
    ∀ e : Errno,
      (unixMount k source (if procfd ≠ "" then procfd else target) fstype flags data h).1 = some e →
      ∃ m : mountError,
        (mount k source target procfd fstype flags data h).1 = some (GoError.mount m) ∧
        m.op = "mount" ∧ m.source = source ∧ m.target = target ∧ m.procfd = procfd ∧
        m.flags = flags ∧ m.data = data ∧ m.Unwrap = e := by
  rw [mount_eq]
  show (Option.map _ (k.unixErr h (KCall.Mount source (if procfd ≠ "" then procfd else target) fstype flags data))
      = none ↔ k.unixErr h (KCall.Mount source (if procfd ≠ "" then procfd else target) fstype flags data) = none) ∧
    ∀ e : Errno,
      k.unixErr h (KCall.Mount source (if procfd ≠ "" then procfd else target) fstype flags data) = some e → _
  refine ⟨Option.map_eq_none, ?_⟩
  intro e he
  rw [he]
  exact ⟨⟨"mount", source, target, procfd, flags, data, e⟩, rfl, rfl, rfl, rfl, rfl, rfl, rfl, rfl⟩

/-- Witness of C1: a mount of `proc` that the kernel refuses with errno 1. -/
theorem mount_result_contract_witness :
    ∃ m : mountError,
      (mount (constKernel (some ⟨1⟩) ⟨0, 0, 0⟩) "proc" "/proc" "/proc/self/fd/7" "proc" 14
        "hidepid=2" []).1 = some (GoError.mount m) ∧
      m.op = "mount" ∧ m.source = "proc" ∧ m.target = "/proc" ∧ m.procfd = "/proc/self/fd/7" ∧
      m.flags = 14 ∧ m.data = "hidepid=2" ∧ m.Unwrap = ⟨1⟩ :=
  (mount_result_contract (constKernel (some ⟨1⟩) ⟨0, 0, 0⟩) "proc" "/proc" "/proc/self/fd/7"
    "proc" 14 "hidepid=2" []).2 ⟨1⟩ (by decide)

/-- Counterexample to C2: two failing mounts that differ only in the filesystem type, refused
with the same OS error, return the same error value, so the type cannot be read off it. -/
theorem mount_error_fstype_counterexample :
    (mount (constKernel (some ⟨19⟩) ⟨0, 0, 0⟩) "none" "/mnt" "" "tmpfs" 0 "" []).1 ≠ none ∧
    "tmpfs" ≠ "bogusfs9" ∧
    (mount (constKernel (some ⟨19⟩) ⟨0, 0, 0⟩) "none" "/mnt" "" "tmpfs" 0 "" []).1 =
      (mount (constKernel (some ⟨19⟩) ⟨0, 0, 0⟩) "none" "/mnt" "" "bogusfs9" 0 "" []).1 := by
  decide

/-- C2, amended: a failed mount carries its source, target, procfd, flags and data and the OS
error, but not the filesystem type: two failing calls that differ only in the type, refused
with the same OS error, return the same error value. -/
theorem mount_error_omits_fstype (k : Kernel) (source target procfd fstype fstype2 : String)
    (flags : Nat) (data : String) (h h2 : List KCall) (e : Errno)
    (h1 : (unixMount k source (if procfd ≠ "" then procfd else target) fstype flags data h).1
      = some e)
    (h3 : (unixMount k source (if procfd ≠ "" then procfd else target) fstype2 flags data h2).1
      = some e) :
    (mount k source target procfd fstype flags data h).1 =
      some (GoError.mount ⟨"mount", source, target, procfd, flags, data, e⟩) ∧
    (mount k source target procfd fstype2 flags data h2).1 =
      (mount k source target procfd fstype flags data h).1 := by
  rw [mount_eq, mount_eq]
  change k.unixErr h _ = some e at h1
  change k.unixErr h2 _ = some e at h3
  simp only [h1, h3, Option.map_some', and_self]

/-- Witness of the amended C2: a `tmpfs` and a `bogusfs9` mount, both refused with errno 19. -/
theorem mount_error_omits_fstype_witness :
    (mount (constKernel (some ⟨19⟩) ⟨0, 0, 0⟩) "none" "/mnt" "" "tmpfs" 0 "size=64m" []).1 =
      some (GoError.mount ⟨"mount", "none", "/mnt", "", 0, "size=64m", ⟨19⟩⟩) ∧
    (mount (constKernel (some ⟨19⟩) ⟨0, 0, 0⟩) "none" "/mnt" "" "bogusfs9" 0 "size=64m" []).1 =
      (mount (constKernel (some ⟨19⟩) ⟨0, 0, 0⟩) "none" "/mnt" "" "tmpfs" 0 "size=64m" []).1 :=
  mount_error_omits_fstype (constKernel (some ⟨19⟩) ⟨0, 0, 0⟩) "none" "/mnt" "" "tmpfs"
    "bogusfs9" 0 "size=64m" [] [] ⟨19⟩ (by decide) (by decide)

/-- C3: the one kernel call of `mount` has destination `procfd` when `procfd` is not empty and
`target` when it is empty, with source, fstype, flags and data passed unchanged; when `procfd`
is not empty, changing `target` changes neither the kernel call nor whether an error comes
back. -/
theorem mount_kernel_destination (k : Kernel) (source target procfd fstype : String)
    (flags : Nat) (data : String) (h : List KCall) :
    (procfd ≠ "" →
      (mount k source target procfd fstype flags data h).2 =
        h ++ [KCall.Mount source procfd fstype flags data] ∧
      ∀ target2 : String,
        (mount k source target2 procfd fstype flags data h).2 =
          (mount k source target procfd fstype flags data h).2 ∧
        ((mount k source target2 procfd fstype flags data h).1 = none ↔
          (mount k source target procfd fstype flags data h).1 = none)) ∧
    (procfd = "" →
      (mount k source target procfd fstype flags data h).2 =
        h ++ [KCall.Mount source target fstype flags data]) := by
  constructor
  · intro hp
    refine ⟨by rw [mount_eq, if_pos hp], ?_⟩
    intro target2
    rw [mount_eq, mount_eq]
    simp only [if_pos hp, Option.map_eq_none', and_self]
  · intro hp
    rw [mount_eq, if_neg (not_not.mpr hp)]

/-- Witness of C3: a mount through `/proc/self/fd/7`, and a mount by path. -/
theorem mount_kernel_destination_witness :
    ((mount echoKernel "proc" "/proc" "/proc/self/fd/7" "proc" 14 "" []).2 =
        [] ++ [KCall.Mount "proc" "/proc/self/fd/7" "proc" 14 ""] ∧
      ∀ target2 : String,
        (mount echoKernel "proc" target2 "/proc/self/fd/7" "proc" 14 "" []).2 =
          (mount echoKernel "proc" "/proc" "/proc/self/fd/7" "proc" 14 "" []).2 ∧
        ((mount echoKernel "proc" target2 "/proc/self/fd/7" "proc" 14 "" []).1 = none ↔
          (mount echoKernel "proc" "/proc" "/proc/self/fd/7" "proc" 14 "" []).1 = none)) ∧
    (mount echoKernel "proc" "/proc" "" "proc" 14 "" []).2 =
      [] ++ [KCall.Mount "proc" "/proc" "proc" 14 ""] :=
  ⟨(mount_kernel_destination echoKernel "proc" "/proc" "/proc/self/fd/7" "proc" 14 "" []).1
      (by decide),
   (mount_kernel_destination echoKernel "proc" "/proc" "" "proc" 14 "" []).2 (by decide)⟩

/-- C4: `unmount` returns nil exactly when the underlying `unix.Unmount` call returns no error,
and when that call returns the OS error `e`, `unmount` returns a `mountError` with op
"unmount", the target given, flags equal to the argument modulo `2 ^ 64`, empty source,
procfd and data, whose `Unwrap` is `e`. -/
theorem unmount_failure_contract (k : Kernel) (target : String) (flags : Int) (h : List KCall) :
    ((unmount k target flags h).1 = none ↔ (unixUnmount k target flags h).1 = none) ∧
    ∀ e : Errno, (unixUnmount k target flags h).1 = some e →
      ∃ m : mountError,
        (unmount k target flags h).1 = some (GoError.mount m) ∧
        m.op = "unmount" ∧ m.target = target ∧
        (m.flags : Int) = flags % 2 ^ 64 ∧ m.flags < 2 ^ 64 ∧
        m.source = "" ∧ m.procfd = "" ∧ m.data = "" ∧ m.Unwrap = e := by
  rw [unmount_eq]
  show (Option.map _ (k.unixErr h (KCall.Unmount target flags)) = none ↔
      k.unixErr h (KCall.Unmount target flags) = none) ∧
    ∀ e : Errno, k.unixErr h (KCall.Unmount target flags) = some e → _
  refine ⟨Option.map_eq_none, ?_⟩
  intro e he
  rw [he]
  refine ⟨⟨"unmount", "", target, "", uintptrOfInt flags, "", e⟩, rfl, rfl, rfl, ?_, ?_,
    rfl, rfl, rfl, rfl⟩
  · show ((uintptrOfInt flags : Nat) : Int) = flags % 2 ^ 64
    unfold uintptrOfInt
    exact Int.toNat_of_nonneg (Int.emod_nonneg _ (by norm_num))
  · show uintptrOfInt flags < 2 ^ 64
    unfold uintptrOfInt
    have h1 : flags % (2 ^ 64 : Int) < 2 ^ 64 := Int.emod_lt_of_pos _ (by norm_num)
    have h2 : 0 ≤ flags % (2 ^ 64 : Int) := Int.emod_nonneg _ (by norm_num)
    omega

/-- Witness of C4: an unmount with flags `-1` that the kernel refuses with errno 22. -/
theorem unmount_failure_contract_witness :
    ∃ m : mountError,
      (unmount (constKernel (some ⟨22⟩) ⟨0, 0, 0⟩) "/mnt" (-1) []).1 = some (GoError.mount m) ∧
      m.op = "unmount" ∧ m.target = "/mnt" ∧
      (m.flags : Int) = (-1) % 2 ^ 64 ∧ m.flags < 2 ^ 64 ∧
      m.source = "" ∧ m.procfd = "" ∧ m.data = "" ∧ m.Unwrap = ⟨22⟩ :=
  (unmount_failure_contract (constKernel (some ⟨22⟩) ⟨0, 0, 0⟩) "/mnt" (-1) []).2 ⟨22⟩ (by decide)

/-! ## Results on the raw system call wrappers -/

/-- C5 fails on the code: `fsMount` never hands its descriptor `mfd` to the kernel.  The call
made is `Syscall(SYS_FSMOUNT, flags, ms_flags, 0)` whatever `mfd` is, so the result does not
depend on `mfd`; with a kernel that echoes its first argument, `fsMount 3 1 0` and
`fsMount 7 1 0` both return 1, the value of `flags`. -/
theorem fsMount_ignores_context_descriptor :
    (∀ (k : Kernel) (mfd mfd2 : Int) (flags ms_flags : Nat) (h : List KCall),
      fsMount k mfd flags ms_flags h = fsMount k mfd2 flags ms_flags h) ∧
    (∀ (k : Kernel) (mfd : Int) (flags ms_flags : Nat) (h : List KCall),
      (fsMount k mfd flags ms_flags h).2 =
        h ++ [KCall.Syscall SYS_FSMOUNT (Arg.word (uintptrOfUint flags))
          (Arg.word (uintptrOfUint ms_flags)) (Arg.word 0)]) ∧
    fsMount echoKernel 3 1 0 [] =
      ((1, none), [KCall.Syscall SYS_FSMOUNT (Arg.word 1) (Arg.word 0) (Arg.word 0)]) ∧
    fsMount echoKernel 7 1 0 [] =
      ((1, none), [KCall.Syscall SYS_FSMOUNT (Arg.word 1) (Arg.word 0) (Arg.word 0)]) := by
  refine ⟨fun _ _ _ _ _ _ => rfl, ?_, by decide, by decide⟩
  intro k mfd flags ms_flags h
  unfold fsMount Syscall
  dsimp only
  split <;> rfl

/-- The wrapper `openTree` on a file name with a NUL byte: no kernel call. -/
theorem openTree_nul (k : Kernel) (dfd : Int) (fileName : String) (flags : Nat)
    (h : List KCall) (hn : hasNul fileName) :
    openTree k dfd fileName flags h = ((0, some (GoError.errno EINVAL)), h) := by
  unfold openTree BytePtrFromString
  rw [if_pos hn]

/-- The wrapper `openTree` on a file name without NUL byte: one kernel call. -/
theorem openTree_call (k : Kernel) (dfd : Int) (fileName : String) (flags : Nat)
    (h : List KCall) (hn : ¬ hasNul fileName) :
    openTree k dfd fileName flags h =
      ((intOfUintptr (k.raw h (openTreeCall dfd fileName flags)).r1,
        errnoError (k.raw h (openTreeCall dfd fileName flags)).e1),
       h ++ [openTreeCall dfd fileName flags]) := by
  unfold openTree BytePtrFromString errnoError
  rw [if_neg hn]
  dsimp only [Syscall6, openTreeCall]
  split <;> rfl

/-- The wrapper `fsOpen` on a filesystem type with a NUL byte: no kernel call. -/
theorem fsOpen_nul (k : Kernel) (fstype : String) (flags : Nat) (h : List KCall)
    (hn : hasNul fstype) :
    fsOpen k fstype flags h = ((0, some (GoError.errno EINVAL)), h) := by
  unfold fsOpen BytePtrFromString
  rw [if_pos hn]

/-- The wrapper `fsOpen` on a filesystem type without NUL byte: one kernel call. -/
theorem fsOpen_call (k : Kernel) (fstype : String) (flags : Nat) (h : List KCall)
    (hn : ¬ hasNul fstype) :
    fsOpen k fstype flags h =
      ((intOfUintptr (k.raw h (fsOpenCall fstype flags)).r1,
        errnoError (k.raw h (fsOpenCall fstype flags)).e1),
       h ++ [fsOpenCall fstype flags]) := by
  unfold fsOpen BytePtrFromString errnoError
  rw [if_neg hn]
  dsimp only [Syscall, fsOpenCall]
  split <;> rfl

/-- The wrapper `fsMount`: one kernel call. -/
theorem fsMount_call (k : Kernel) (mfd : Int) (flags ms_flags : Nat) (h : List KCall) :
    fsMount k mfd flags ms_flags h =
      ((intOfUintptr (k.raw h (fsMountCall flags ms_flags)).r1,
        errnoError (k.raw h (fsMountCall flags ms_flags)).e1),
       h ++ [fsMountCall flags ms_flags]) := by
  unfold fsMount errnoError
  dsimp only [Syscall, fsMountCall]
  split <;> rfl

/-- The wrapper `fsConfig` on a key or value with a NUL byte: no kernel call. -/
theorem fsConfig_nul (k : Kernel) (fs_fd cmd : Int) (key val : String) (aux : Int)
    (h : List KCall) (hn : hasNul key ∨ hasNul val) :
    fsConfig k fs_fd cmd key val aux h = (some (GoError.errno EINVAL), h) := by
  unfold fsConfig BytePtrFromString
  by_cases hk : hasNul key
  · rw [if_pos hk]
  · rw [if_neg hk]
    have hv : hasNul val := hn.resolve_left hk
    dsimp only
    rw [if_pos hv]

/-- The wrapper `fsConfig` on a key and value without NUL byte: one kernel call. -/
theorem fsConfig_call (k : Kernel) (fs_fd cmd : Int) (key val : String) (aux : Int)
    (h : List KCall) (hk : ¬ hasNul key) (hv : ¬ hasNul val) :
    fsConfig k fs_fd cmd key val aux h =
      (errnoError (k.raw h (fsConfigCall fs_fd cmd key val aux)).e1,
       h ++ [fsConfigCall fs_fd cmd key val aux]) := by
  unfold fsConfig BytePtrFromString errnoError
  rw [if_neg hk]
  dsimp only
  rw [if_neg hv]
  dsimp only [Syscall6, fsConfigCall]
  split <;> rfl

/-- The wrapper `moveMount` on a path with a NUL byte: no kernel call. -/
theorem moveMount_nul (k : Kernel) (from_dfd : Int) (fromPathName : String) (to_dfd : Int)
    (toPathName : String) (flags : Nat) (h : List KCall)
    (hn : hasNul fromPathName ∨ hasNul toPathName) :
    moveMount k from_dfd fromPathName to_dfd toPathName flags h =
      (some (GoError.errno EINVAL), h) := by
  unfold moveMount BytePtrFromString
  by_cases hk : hasNul fromPathName
  · rw [if_pos hk]
  · rw [if_neg hk]
    have hv : hasNul toPathName := hn.resolve_left hk
    dsimp only
    rw [if_pos hv]

/-- The wrapper `moveMount` on paths without NUL byte: one kernel call. -/
theorem moveMount_call (k : Kernel) (from_dfd : Int) (fromPathName : String) (to_dfd : Int)
    (toPathName : String) (flags : Nat) (h : List KCall)
    (hk : ¬ hasNul fromPathName) (hv : ¬ hasNul toPathName) :
    moveMount k from_dfd fromPathName to_dfd toPathName flags h =
      (errnoError (k.raw h (moveMountCall from_dfd fromPathName to_dfd toPathName flags)).e1,
       h ++ [moveMountCall from_dfd fromPathName to_dfd toPathName flags]) := by
  unfold moveMount BytePtrFromString errnoError
  rw [if_neg hk]
  dsimp only
  rw [if_neg hv]
  dsimp only [Syscall6, moveMountCall]
  split <;> rfl

/-- The error derived from an errno is nil exactly when the errno is zero. -/
theorem errnoError_ne_none (e1 : Nat) : errnoError e1 ≠ none ↔ e1 ≠ 0 := by
  unfold errnoError
  split <;> simp_all

/-- The error derived from an errno is never a structured value. -/
theorem errnoError_bare (e1 : Nat) (e : GoError) (he : errnoError e1 = some e) :
    e.isStructured = false := by
  unfold errnoError at he
  split at he
  · cases he; rfl
  · cases he

/-- Counterexample to C6: on a kernel that fails every raw call with errno 38, each of the
five wrappers returns the bare errno 38, which is not a structured error value. -/
theorem raw_wrappers_structured_error_counterexample :
    (enosysKernel.raw [] (openTreeCall (-100) "/" 1)).e1 ≠ 0 ∧
    (openTree enosysKernel (-100) "/" 1 []).1.2 = some (GoError.errno ⟨38⟩) ∧
    (fsOpen enosysKernel "tmpfs" 0 []).1.2 = some (GoError.errno ⟨38⟩) ∧
    (fsConfig enosysKernel 3 1 "size" "64m" 0 []).1 = some (GoError.errno ⟨38⟩) ∧
    (fsMount enosysKernel 3 0 0 []).1.2 = some (GoError.errno ⟨38⟩) ∧
    (moveMount enosysKernel 4 "" (-100) "/mnt" 4 []).1 = some (GoError.errno ⟨38⟩) ∧
    (GoError.errno ⟨38⟩).isStructured = false := by
  decide

/-- C6, amended: each of `openTree`, `fsOpen`, `fsConfig`, `fsMount` and `moveMount` reports a
failure as a bare errno.  Any error one of them returns is not a structured value, and when
the kernel call is made (no string argument holds a NUL byte) and returns a non-zero errno,
the returned error is exactly that errno. -/
theorem raw_wrappers_return_bare_errno (k : Kernel) (h : List KCall)
    (dfd : Int) (fileName : String) (flags : Nat) (fstype : String)
    (fs_fd cmd : Int) (key val : String) (aux : Int) (mfd : Int) (ms_flags : Nat)
    (from_dfd : Int) (fromPathName : String) (to_dfd : Int) (toPathName : String) :
    ((∀ e, (openTree k dfd fileName flags h).1.2 = some e → e.isStructured = false) ∧
     (¬ hasNul fileName → (k.raw h (openTreeCall dfd fileName flags)).e1 ≠ 0 →
       (openTree k dfd fileName flags h).1.2 =
         some (GoError.errno ⟨(k.raw h (openTreeCall dfd fileName flags)).e1⟩))) ∧
    ((∀ e, (fsOpen k fstype flags h).1.2 = some e → e.isStructured = false) ∧
     (¬ hasNul fstype → (k.raw h (fsOpenCall fstype flags)).e1 ≠ 0 →
       (fsOpen k fstype flags h).1.2 =
         some (GoError.errno ⟨(k.raw h (fsOpenCall fstype flags)).e1⟩))) ∧
    ((∀ e, (fsConfig k fs_fd cmd key val aux h).1 = some e → e.isStructured = false) ∧
     (¬ hasNul key → ¬ hasNul val → (k.raw h (fsConfigCall fs_fd cmd key val aux)).e1 ≠ 0 →
       (fsConfig k fs_fd cmd key val aux h).1 =
         some (GoError.errno ⟨(k.raw h (fsConfigCall fs_fd cmd key val aux)).e1⟩))) ∧
    ((∀ e, (fsMount k mfd flags ms_flags h).1.2 = some e → e.isStructured = false) ∧
     ((k.raw h (fsMountCall flags ms_flags)).e1 ≠ 0 →
       (fsMount k mfd flags ms_flags h).1.2 =
         some (GoError.errno ⟨(k.raw h (fsMountCall flags ms_flags)).e1⟩))) ∧
    ((∀ e, (moveMount k from_dfd fromPathName to_dfd toPathName flags h).1 = some e →
        e.isStructured = false) ∧
     (¬ hasNul fromPathName → ¬ hasNul toPathName →
       (k.raw h (moveMountCall from_dfd fromPathName to_dfd toPathName flags)).e1 ≠ 0 →
       (moveMount k from_dfd fromPathName to_dfd toPathName flags h).1 =
         some (GoError.errno
           ⟨(k.raw h (moveMountCall from_dfd fromPathName to_dfd toPathName flags)).e1⟩))) := by
  have bare : ∀ e : GoError, some (GoError.errno EINVAL) = some e → e.isStructured = false := by
    intro e he
    cases he
    rfl
  have hit : ∀ e1 : Nat, e1 ≠ 0 → errnoError e1 = some (GoError.errno ⟨e1⟩) := by
    intro e1 he
    unfold errnoError
    rw [if_pos he]
  refine ⟨⟨?_, ?_⟩, ⟨?_, ?_⟩, ⟨?_, ?_⟩, ⟨?_, ?_⟩, ⟨?_, ?_⟩⟩
  · by_cases hn : hasNul fileName
    · rw [openTree_nul k dfd fileName flags h hn]; exact bare
    · rw [openTree_call k dfd fileName flags h hn]; exact errnoError_bare _
  · intro hn he
    rw [openTree_call k dfd fileName flags h hn]; exact hit _ he
  · by_cases hn : hasNul fstype
    · rw [fsOpen_nul k fstype flags h hn]; exact bare
    · rw [fsOpen_call k fstype flags h hn]; exact errnoError_bare _
  · intro hn he
    rw [fsOpen_call k fstype flags h hn]; exact hit _ he
  · by_cases hn : hasNul key ∨ hasNul val
    · rw [fsConfig_nul k fs_fd cmd key val aux h hn]; exact bare
    · rw [fsConfig_call k fs_fd cmd key val aux h (fun hk => hn (Or.inl hk))
        (fun hv => hn (Or.inr hv))]
      exact errnoError_bare _
  · intro hk hv he
    rw [fsConfig_call k fs_fd cmd key val aux h hk hv]; exact hit _ he
  · rw [fsMount_call]; exact errnoError_bare _
  · intro he
    rw [fsMount_call]; exact hit _ he
  · by_cases hn : hasNul fromPathName ∨ hasNul toPathName
    · rw [moveMount_nul k from_dfd fromPathName to_dfd toPathName flags h hn]; exact bare
    · rw [moveMount_call k from_dfd fromPathName to_dfd toPathName flags h
        (fun hk => hn (Or.inl hk)) (fun hv => hn (Or.inr hv))]
      exact errnoError_bare _
  · intro hk hv he
    rw [moveMount_call k from_dfd fromPathName to_dfd toPathName flags h hk hv]; exact hit _ he

/-- Witness of the amended C6: the five wrappers on a kernel failing with errno 38. -/
theorem raw_wrappers_return_bare_errno_witness :
    (GoError.errno ⟨38⟩).isStructured = false ∧
    (openTree enosysKernel (-100) "/" 1 []).1.2 =
      some (GoError.errno ⟨(enosysKernel.raw [] (openTreeCall (-100) "/" 1)).e1⟩) ∧
    (fsOpen enosysKernel "tmpfs" 1 []).1.2 =
      some (GoError.errno ⟨(enosysKernel.raw [] (fsOpenCall "tmpfs" 1)).e1⟩) ∧
    (fsConfig enosysKernel 3 1 "size" "64m" 0 []).1 =
      some (GoError.errno ⟨(enosysKernel.raw [] (fsConfigCall 3 1 "size" "64m" 0)).e1⟩) ∧
    (fsMount enosysKernel 3 1 0 []).1.2 =
      some (GoError.errno ⟨(enosysKernel.raw [] (fsMountCall 1 0)).e1⟩) ∧
    (moveMount enosysKernel 4 "" (-100) "/mnt" 1 []).1 =
      some (GoError.errno ⟨(enosysKernel.raw [] (moveMountCall 4 "" (-100) "/mnt" 1)).e1⟩) :=
  ⟨(raw_wrappers_return_bare_errno enosysKernel [] (-100) "/" 1 "tmpfs" 3 1 "size" "64m" 0 3 0
      4 "" (-100) "/mnt").1.1 (GoError.errno ⟨38⟩) (by decide),
   (raw_wrappers_return_bare_errno enosysKernel [] (-100) "/" 1 "tmpfs" 3 1 "size" "64m" 0 3 0
      4 "" (-100) "/mnt").1.2 (by decide) (by decide),
   (raw_wrappers_return_bare_errno enosysKernel [] (-100) "/" 1 "tmpfs" 3 1 "size" "64m" 0 3 0
      4 "" (-100) "/mnt").2.1.2 (by decide) (by decide),
   (raw_wrappers_return_bare_errno enosysKernel [] (-100) "/" 1 "tmpfs" 3 1 "size" "64m" 0 3 0
      4 "" (-100) "/mnt").2.2.1.2 (by decide) (by decide) (by decide),
   (raw_wrappers_return_bare_errno enosysKernel [] (-100) "/" 1 "tmpfs" 3 1 "size" "64m" 0 3 0
      4 "" (-100) "/mnt").2.2.2.1.2 (by decide),
   (raw_wrappers_return_bare_errno enosysKernel [] (-100) "/" 1 "tmpfs" 3 1 "size" "64m" 0 3 0
      4 "" (-100) "/mnt").2.2.2.2.2 (by decide) (by decide) (by decide)⟩

/-- An invocation that made no kernel call satisfies `atMostOneCallNoSwallow`. -/
theorem atMostOne_of_no_call (k : Kernel) (h : List KCall) (err : Option GoError) :
    atMostOneCallNoSwallow k h err h :=
  ⟨[], by simp, by simp, by simp⟩

/-- An invocation that made one kernel call and did not drop its error satisfies
`atMostOneCallNoSwallow`. -/
theorem atMostOne_of_one_call (k : Kernel) (h : List KCall) (err : Option GoError) (c : KCall)
    (hc : reportsError k h c → err ≠ none) :
    atMostOneCallNoSwallow k h err (h ++ [c]) := by
  refine ⟨[c], rfl, by simp, ?_⟩
  intro c2 hc2
  rw [List.mem_singleton] at hc2
  subst hc2
  exact hc

/-- C8: one invocation of `mount`, `unmount`, `openTree`, `fsOpen`, `fsConfig`, `fsMount` or
`moveMount` makes at most one kernel call, whatever the kernel answers (the oracle may depend
on the history), and if that call reports an error the wrapper returns a non-nil error. -/
theorem primitives_no_retry_no_swallow (k : Kernel) (h : List KCall)
    (source target procfd fstype : String) (flags : Nat) (data : String) (uflags : Int)
    (dfd : Int) (fileName : String)
    (fs_fd cmd : Int) (key val : String) (aux : Int) (mfd : Int) (ms_flags : Nat)
    (from_dfd : Int) (fromPathName : String) (to_dfd : Int) (toPathName : String) :
    atMostOneCallNoSwallow k h (mount k source target procfd fstype flags data h).1
      (mount k source target procfd fstype flags data h).2 ∧
    atMostOneCallNoSwallow k h (unmount k target uflags h).1 (unmount k target uflags h).2 ∧
    atMostOneCallNoSwallow k h (openTree k dfd fileName flags h).1.2
      (openTree k dfd fileName flags h).2 ∧
    atMostOneCallNoSwallow k h (fsOpen k fstype flags h).1.2 (fsOpen k fstype flags h).2 ∧
    atMostOneCallNoSwallow k h (fsConfig k fs_fd cmd key val aux h).1
      (fsConfig k fs_fd cmd key val aux h).2 ∧
    atMostOneCallNoSwallow k h (fsMount k mfd flags ms_flags h).1.2
      (fsMount k mfd flags ms_flags h).2 ∧
    atMostOneCallNoSwallow k h (moveMount k from_dfd fromPathName to_dfd toPathName flags h).1
      (moveMount k from_dfd fromPathName to_dfd toPathName flags h).2 := by
  have raw6 : ∀ c : KCall, (reportsError k h c ↔ (k.raw h c).e1 ≠ 0) →
      reportsError k h c → errnoError (k.raw h c).e1 ≠ none :=
    fun c hc hr => (errnoError_ne_none _).mpr (hc.mp hr)
  refine ⟨?_, ?_, ?_, ?_, ?_, ?_, ?_⟩
  · rw [mount_eq]
    apply atMostOne_of_one_call
    intro hr
    simpa [reportsError] using hr
  · rw [unmount_eq]
    apply atMostOne_of_one_call
    intro hr
    simpa [reportsError] using hr
  · by_cases hn : hasNul fileName
    · rw [openTree_nul k dfd fileName flags h hn]; exact atMostOne_of_no_call _ _ _
    · rw [openTree_call k dfd fileName flags h hn]
      exact atMostOne_of_one_call _ _ _ _ (raw6 _ Iff.rfl)
  · by_cases hn : hasNul fstype
    · rw [fsOpen_nul k fstype flags h hn]; exact atMostOne_of_no_call _ _ _
    · rw [fsOpen_call k fstype flags h hn]
      exact atMostOne_of_one_call _ _ _ _ (raw6 _ Iff.rfl)
  · by_cases hn : hasNul key ∨ hasNul val
    · rw [fsConfig_nul k fs_fd cmd key val aux h hn]; exact atMostOne_of_no_call _ _ _
    · rw [fsConfig_call k fs_fd cmd key val aux h (fun hk => hn (Or.inl hk))
        (fun hv => hn (Or.inr hv))]
      exact atMostOne_of_one_call _ _ _ _ (raw6 _ Iff.rfl)
  · rw [fsMount_call]
    exact atMostOne_of_one_call _ _ _ _ (raw6 _ Iff.rfl)
  · by_cases hn : hasNul fromPathName ∨ hasNul toPathName
    · rw [moveMount_nul k from_dfd fromPathName to_dfd toPathName flags h hn]
      exact atMostOne_of_no_call _ _ _
    · rw [moveMount_call k from_dfd fromPathName to_dfd toPathName flags h
        (fun hk => hn (Or.inl hk)) (fun hv => hn (Or.inr hv))]
      exact atMostOne_of_one_call _ _ _ _ (raw6 _ Iff.rfl)

/-- Witness of C8: on a kernel failing every raw call, `fsOpen` and `unmount` each make at
most one call. -/
theorem primitives_no_retry_no_swallow_witness :
    (∃ calls : List KCall, (fsOpen enosysKernel "tmpfs" 1 []).2 = [] ++ calls ∧
      calls.length ≤ 1 ∧
      ∀ c ∈ calls, reportsError enosysKernel [] c → (fsOpen enosysKernel "tmpfs" 1 []).1.2 ≠ none) ∧
    (∃ calls : List KCall, (unmount enosysKernel "/mnt" 2 []).2 = [] ++ calls ∧
      calls.length ≤ 1 ∧
      ∀ c ∈ calls, reportsError enosysKernel [] c → (unmount enosysKernel "/mnt" 2 []).1 ≠ none) :=
  ⟨(primitives_no_retry_no_swallow enosysKernel [] "none" "/mnt" "" "tmpfs" 1 "" 2 (-100) "/"
      3 1 "size" "64m" 0 3 0 4 "" (-100) "/mnt").2.2.2.1,
   (primitives_no_retry_no_swallow enosysKernel [] "none" "/mnt" "" "tmpfs" 1 "" 2 (-100) "/"
      3 1 "size" "64m" 0 3 0 4 "" (-100) "/mnt").2.1⟩

/-- C10: each of `openTree`, `fsOpen`, `fsConfig` and `moveMount` returns a non-nil error and
makes no kernel call when a string argument holds a NUL byte, `openTree` and `fsOpen` then
returning descriptor 0; when no string argument holds a NUL byte, exactly one kernel call is
made, an error is returned exactly when the errno is non-zero, and `openTree` and `fsOpen`
return the kernel's result word as the descriptor. -/
theorem nul_argument_handling (k : Kernel) (h : List KCall)
    (dfd : Int) (fileName : String) (flags : Nat) (fstype : String)
    (fs_fd cmd : Int) (key val : String) (aux : Int)
    (from_dfd : Int) (fromPathName : String) (to_dfd : Int) (toPathName : String) :
    ((hasNul fileName →
        (openTree k dfd fileName flags h).2 = h ∧
        (openTree k dfd fileName flags h).1.2 ≠ none ∧
        (openTree k dfd fileName flags h).1.1 = 0) ∧
     (¬ hasNul fileName →
        (openTree k dfd fileName flags h).2 = h ++ [openTreeCall dfd fileName flags] ∧
        ((openTree k dfd fileName flags h).1.2 ≠ none ↔
          (k.raw h (openTreeCall dfd fileName flags)).e1 ≠ 0) ∧
        (openTree k dfd fileName flags h).1.1 =
          intOfUintptr (k.raw h (openTreeCall dfd fileName flags)).r1)) ∧
    ((hasNul fstype →
        (fsOpen k fstype flags h).2 = h ∧
        (fsOpen k fstype flags h).1.2 ≠ none ∧
        (fsOpen k fstype flags h).1.1 = 0) ∧
     (¬ hasNul fstype →
        (fsOpen k fstype flags h).2 = h ++ [fsOpenCall fstype flags] ∧
        ((fsOpen k fstype flags h).1.2 ≠ none ↔ (k.raw h (fsOpenCall fstype flags)).e1 ≠ 0) ∧
        (fsOpen k fstype flags h).1.1 = intOfUintptr (k.raw h (fsOpenCall fstype flags)).r1)) ∧
    ((hasNul key ∨ hasNul val →
        (fsConfig k fs_fd cmd key val aux h).2 = h ∧
        (fsConfig k fs_fd cmd key val aux h).1 ≠ none) ∧
     (¬ hasNul key → ¬ hasNul val →
        (fsConfig k fs_fd cmd key val aux h).2 = h ++ [fsConfigCall fs_fd cmd key val aux] ∧
        ((fsConfig k fs_fd cmd key val aux h).1 ≠ none ↔
          (k.raw h (fsConfigCall fs_fd cmd key val aux)).e1 ≠ 0))) ∧
    ((hasNul fromPathName ∨ hasNul toPathName →
        (moveMount k from_dfd fromPathName to_dfd toPathName flags h).2 = h ∧
        (moveMount k from_dfd fromPathName to_dfd toPathName flags h).1 ≠ none) ∧
     (¬ hasNul fromPathName → ¬ hasNul toPathName →
        (moveMount k from_dfd fromPathName to_dfd toPathName flags h).2 =
          h ++ [moveMountCall from_dfd fromPathName to_dfd toPathName flags] ∧
        ((moveMount k from_dfd fromPathName to_dfd toPathName flags h).1 ≠ none ↔
          (k.raw h (moveMountCall from_dfd fromPathName to_dfd toPathName flags)).e1 ≠ 0))) := by
  refine ⟨⟨?_, ?_⟩, ⟨?_, ?_⟩, ⟨?_, ?_⟩, ⟨?_, ?_⟩⟩
  · intro hn
    rw [openTree_nul k dfd fileName flags h hn]
    exact ⟨rfl, Option.some_ne_none _, rfl⟩
  · intro hn
    rw [openTree_call k dfd fileName flags h hn]
    exact ⟨rfl, errnoError_ne_none _, rfl⟩
  · intro hn
    rw [fsOpen_nul k fstype flags h hn]
    exact ⟨rfl, Option.some_ne_none _, rfl⟩
  · intro hn
    rw [fsOpen_call k fstype flags h hn]
    exact ⟨rfl, errnoError_ne_none _, rfl⟩
  · intro hn
    rw [fsConfig_nul k fs_fd cmd key val aux h hn]
    exact ⟨rfl, Option.some_ne_none _⟩
  · intro hk hv
    rw [fsConfig_call k fs_fd cmd key val aux h hk hv]
    exact ⟨rfl, errnoError_ne_none _⟩
  · intro hn
    rw [moveMount_nul k from_dfd fromPathName to_dfd toPathName flags h hn]
    exact ⟨rfl, Option.some_ne_none _⟩
  · intro hk hv
    rw [moveMount_call k from_dfd fromPathName to_dfd toPathName flags h hk hv]
    exact ⟨rfl, errnoError_ne_none _⟩

/-- Witness of C10: the four wrappers on a path holding a NUL byte, and on clean strings with
a kernel that echoes the first argument. -/
theorem nul_argument_handling_witness :
    ((openTree echoKernel 5 nulPath 1 []).2 = [] ∧
      (openTree echoKernel 5 nulPath 1 []).1.2 ≠ none ∧
      (openTree echoKernel 5 nulPath 1 []).1.1 = 0) ∧
    ((openTree echoKernel 5 "/" 1 []).2 = [] ++ [openTreeCall 5 "/" 1] ∧
      ((openTree echoKernel 5 "/" 1 []).1.2 ≠ none ↔
        (echoKernel.raw [] (openTreeCall 5 "/" 1)).e1 ≠ 0) ∧
      (openTree echoKernel 5 "/" 1 []).1.1 =
        intOfUintptr (echoKernel.raw [] (openTreeCall 5 "/" 1)).r1) ∧
    ((fsOpen echoKernel nulPath 1 []).2 = [] ∧
      (fsOpen echoKernel nulPath 1 []).1.2 ≠ none ∧
      (fsOpen echoKernel nulPath 1 []).1.1 = 0) ∧
    ((fsOpen echoKernel "tmpfs" 1 []).2 = [] ++ [fsOpenCall "tmpfs" 1] ∧
      ((fsOpen echoKernel "tmpfs" 1 []).1.2 ≠ none ↔
        (echoKernel.raw [] (fsOpenCall "tmpfs" 1)).e1 ≠ 0) ∧
      (fsOpen echoKernel "tmpfs" 1 []).1.1 =
        intOfUintptr (echoKernel.raw [] (fsOpenCall "tmpfs" 1)).r1) ∧
    ((fsConfig echoKernel 3 1 "size" nulPath 0 []).2 = [] ∧
      (fsConfig echoKernel 3 1 "size" nulPath 0 []).1 ≠ none) ∧
    ((fsConfig echoKernel 3 1 "size" "64m" 0 []).2 = [] ++ [fsConfigCall 3 1 "size" "64m" 0] ∧
      ((fsConfig echoKernel 3 1 "size" "64m" 0 []).1 ≠ none ↔
        (echoKernel.raw [] (fsConfigCall 3 1 "size" "64m" 0)).e1 ≠ 0)) ∧
    ((moveMount echoKernel 4 "" (-100) nulPath 1 []).2 = [] ∧
      (moveMount echoKernel 4 "" (-100) nulPath 1 []).1 ≠ none) ∧
    ((moveMount echoKernel 4 "" (-100) "/mnt" 1 []).2 =
        [] ++ [moveMountCall 4 "" (-100) "/mnt" 1] ∧
      ((moveMount echoKernel 4 "" (-100) "/mnt" 1 []).1 ≠ none ↔
        (echoKernel.raw [] (moveMountCall 4 "" (-100) "/mnt" 1)).e1 ≠ 0)) :=
  ⟨(nul_argument_handling echoKernel [] 5 nulPath 1 nulPath 3 1 "size" nulPath 0
      4 "" (-100) nulPath).1.1 (by decide),
   (nul_argument_handling echoKernel [] 5 "/" 1 "tmpfs" 3 1 "size" "64m" 0
      4 "" (-100) "/mnt").1.2 (by decide),
   (nul_argument_handling echoKernel [] 5 nulPath 1 nulPath 3 1 "size" nulPath 0
      4 "" (-100) nulPath).2.1.1 (by decide),
   (nul_argument_handling echoKernel [] 5 "/" 1 "tmpfs" 3 1 "size" "64m" 0
      4 "" (-100) "/mnt").2.1.2 (by decide),
   (nul_argument_handling echoKernel [] 5 nulPath 1 nulPath 3 1 "size" nulPath 0
      4 "" (-100) nulPath).2.2.1.1 (by decide),
   (nul_argument_handling echoKernel [] 5 "/" 1 "tmpfs" 3 1 "size" "64m" 0
      4 "" (-100) "/mnt").2.2.1.2 (by decide) (by decide),
   (nul_argument_handling echoKernel [] 5 nulPath 1 nulPath 3 1 "size" nulPath 0
      4 "" (-100) nulPath).2.2.2.1 (by decide),
   (nul_argument_handling echoKernel [] 5 "/" 1 "tmpfs" 3 1 "size" "64m" 0
      4 "" (-100) "/mnt").2.2.2.2 (by decide) (by decide)⟩

/-! ## Results on the error message -/

/-- Every entry of the digit table below 16 is a lowercase hexadecimal digit with the right
value, and only entry 0 is the character `0`. -/
theorem digitAt_spec : ∀ d, d < 16 →
    isLowerHexDigit (digitAt d) = true ∧ hexDigitValue (digitAt d) = d ∧
    (0 < d → digitAt d ≠ '0') := by
  decide

/-- The digits already produced stay behind the ones `formatBits16` adds. -/
theorem formatBits16_acc (fuel u : Nat) (acc : List Char) :
    formatBits16 fuel u acc = formatBits16 fuel u [] ++ acc := by
  induction fuel generalizing u acc with
  | zero => rfl
  | succ n ih =>
    unfold formatBits16
    split
    · rw [ih (u / 16) (digitAt (u % 16) :: acc), ih (u / 16) [digitAt (u % 16)]]
      simp
    · rfl

/-- Appending a digit to a numeral multiplies its value by 16 and adds the digit. -/
theorem hexValue_snoc (cs : List Char) (c : Char) :
    hexValue (cs ++ [c]) = 16 * hexValue cs + hexDigitValue c := by
  unfold hexValue
  rw [List.foldl_append]
  rfl

/-- With enough room, the digits `formatBits16` produces denote the number formatted. -/
theorem formatBits16_value (fuel u : Nat) (hu : u < 16 ^ (fuel + 1)) :
    hexValue (formatBits16 fuel u []) = u := by
  induction fuel generalizing u with
  | zero =>
    have h16 : u < 16 := by simpa using hu
    show hexValue ([] ++ [digitAt (u % 16)]) = u
    rw [hexValue_snoc, Nat.mod_eq_of_lt h16, (digitAt_spec u h16).2.1]
    simp [hexValue]
  | succ n ih =>
    unfold formatBits16
    split
    · rw [formatBits16_acc, hexValue_snoc, ih (u / 16) (by
        apply Nat.div_lt_of_lt_mul
        rw [pow_succ] at hu
        omega), (digitAt_spec (u % 16) (Nat.mod_lt _ (by norm_num))).2.1]
      exact Nat.div_add_mod u 16
    · have h16 : u < 16 := by omega
      show hexValue ([] ++ [digitAt u]) = u
      rw [hexValue_snoc, (digitAt_spec u h16).2.1]
      simp [hexValue]

/-- Every character `formatBits16` produces is a lowercase hexadecimal digit. -/
theorem formatBits16_digits (fuel u : Nat) (hu : u < 16 ^ (fuel + 1)) (acc : List Char)
    (hacc : ∀ c ∈ acc, isLowerHexDigit c = true) :
    ∀ c ∈ formatBits16 fuel u acc, isLowerHexDigit c = true := by
  induction fuel generalizing u acc with
  | zero =>
    intro c hc
    have hc2 : c = digitAt (u % 16) ∨ c ∈ acc := by simpa [formatBits16] using hc
    rcases hc2 with rfl | hc2
    · exact (digitAt_spec _ (Nat.mod_lt _ (by norm_num))).1
    · exact hacc c hc2
  | succ n ih =>
    unfold formatBits16
    split
    · apply ih
      · apply Nat.div_lt_of_lt_mul
        rw [pow_succ] at hu
        omega
      · intro c hc
        rcases List.mem_cons.mp hc with rfl | hc2
        · exact (digitAt_spec _ (Nat.mod_lt _ (by norm_num))).1
        · exact hacc c hc2
    · intro c hc
      rcases List.mem_cons.mp hc with rfl | hc2
      · exact (digitAt_spec _ (by omega)).1
      · exact hacc c hc2

/-- The first character `formatBits16` produces for a non-zero number is a non-zero digit. -/
theorem formatBits16_head (fuel u : Nat) (h0 : 0 < u) (hu : u < 16 ^ (fuel + 1))
    (acc : List Char) :
    ∃ d rest, 0 < d ∧ d < 16 ∧ formatBits16 fuel u acc = digitAt d :: rest := by
  induction fuel generalizing u acc with
  | zero =>
    have h16 : u < 16 := by simpa using hu
    exact ⟨u, acc, h0, h16, by simp [formatBits16, Nat.mod_eq_of_lt h16]⟩
  | succ n ih =>
    unfold formatBits16
    split
    · apply ih
      · omega
      · apply Nat.div_lt_of_lt_mul
        rw [pow_succ] at hu
        omega
    · exact ⟨u, acc, h0, by omega, rfl⟩

/-- The message of `Error` as the concatenation of its segments. -/
theorem mountError_Error_eq (errText : Errno → String) (e : mountError) :
    e.Error errText =
      e.op ++ " " ++ (if e.source ≠ "" then e.source ++ ":" ++ e.target else e.target) ++
        (if e.procfd ≠ "" then " (via " ++ e.procfd ++ ")" else "") ++
        (if e.flags ≠ 0 then ", flags: 0x" ++ FormatUint16 (uint64OfUintptr e.flags) else "") ++
        (if e.data ≠ "" then ", data: " ++ e.data else "") ++ (": " ++ errText e.err) := by
  unfold mountError.Error
  dsimp only
  split_ifs <;> simp only [String.append_assoc, String.append_empty, String.empty_append]

/-- C7: the message of a `mountError` begins with the op and a space, ends with ": " and the
text of the underlying error, contains the target, contains "source:target", " (via procfd)"
and ", data: data" for each of source, procfd and data that is not empty, has the segment
", flags: 0x" followed by the lowercase hexadecimal digits of flags without leading zero when
flags is not zero, and has no flags segment when flags is zero. -/
theorem mountError_Error_self_describing (errText : Errno → String) (e : mountError)
    (hfl : e.flags < 2 ^ 64) :
    (∃ rest, e.Error errText = e.op ++ " " ++ rest) ∧
    (∃ front, e.Error errText = front ++ (": " ++ errText e.err)) ∧
    (∃ a b, e.Error errText = a ++ e.target ++ b) ∧
    (e.source ≠ "" → ∃ a b, e.Error errText = a ++ (e.source ++ ":" ++ e.target) ++ b) ∧
    (e.procfd ≠ "" → ∃ a b, e.Error errText = a ++ (" (via " ++ e.procfd ++ ")") ++ b) ∧
    (e.data ≠ "" → ∃ a b, e.Error errText = a ++ (", data: " ++ e.data) ++ b) ∧
    (e.flags ≠ 0 → ∃ hex : String,
      e.Error errText =
        e.op ++ " " ++ (if e.source ≠ "" then e.source ++ ":" ++ e.target else e.target) ++
          (if e.procfd ≠ "" then " (via " ++ e.procfd ++ ")" else "") ++
          (", flags: 0x" ++ hex) ++
          (if e.data ≠ "" then ", data: " ++ e.data else "") ++ (": " ++ errText e.err) ∧
      (∀ c ∈ hex.data, isLowerHexDigit c = true) ∧ hex.data ≠ [] ∧
      hex.data.head? ≠ some '0' ∧ hexValue hex.data = e.flags) ∧
    (e.flags = 0 →
      e.Error errText =
        e.op ++ " " ++ (if e.source ≠ "" then e.source ++ ":" ++ e.target else e.target) ++
          (if e.procfd ≠ "" then " (via " ++ e.procfd ++ ")" else "") ++
          (if e.data ≠ "" then ", data: " ++ e.data else "") ++ (": " ++ errText e.err)) := by
  obtain ⟨S, P, F, D, hS, hP, hF, hD, E⟩ : ∃ S P F D : String,
      S = (if e.source ≠ "" then e.source ++ ":" ++ e.target else e.target) ∧
      P = (if e.procfd ≠ "" then " (via " ++ e.procfd ++ ")" else "") ∧
      F = (if e.flags ≠ 0 then ", flags: 0x" ++ FormatUint16 (uint64OfUintptr e.flags) else "") ∧
      D = (if e.data ≠ "" then ", data: " ++ e.data else "") ∧
      e.Error errText = e.op ++ " " ++ S ++ P ++ F ++ D ++ (": " ++ errText e.err) :=
    ⟨_, _, _, _, rfl, rfl, rfl, rfl, mountError_Error_eq errText e⟩
  rw [E, ← hS, ← hP, ← hD]
  refine ⟨⟨S ++ P ++ F ++ D ++ (": " ++ errText e.err), ?_⟩,
    ⟨e.op ++ " " ++ S ++ P ++ F ++ D, rfl⟩, ?_, ?_, ?_, ?_, ?_, ?_⟩
  · simp only [String.append_assoc]
  · by_cases hs : e.source ≠ ""
    · rw [if_pos hs] at hS
      refine ⟨e.op ++ " " ++ (e.source ++ ":"), P ++ F ++ D ++ (": " ++ errText e.err), ?_⟩
      rw [hS]
      simp only [String.append_assoc]
    · rw [if_neg hs] at hS
      refine ⟨e.op ++ " ", P ++ F ++ D ++ (": " ++ errText e.err), ?_⟩
      rw [hS]
      simp only [String.append_assoc]
  · intro hs
    rw [if_pos hs] at hS
    refine ⟨e.op ++ " ", P ++ F ++ D ++ (": " ++ errText e.err), ?_⟩
    rw [hS]
    simp only [String.append_assoc]
  · intro hp
    rw [if_pos hp] at hP
    refine ⟨e.op ++ " " ++ S, F ++ D ++ (": " ++ errText e.err), ?_⟩
    rw [hP]
    simp only [String.append_assoc]
  · intro hd
    rw [if_pos hd] at hD
    refine ⟨e.op ++ " " ++ S ++ P ++ F, ": " ++ errText e.err, ?_⟩
    rw [hD]
  · intro hf
    rw [if_pos hf] at hF
    have hval : uint64OfUintptr e.flags = e.flags := Nat.mod_eq_of_lt hfl
    have hroom : e.flags < 16 ^ (64 + 1) := lt_trans hfl (by norm_num)
    refine ⟨FormatUint16 e.flags, ?_, ?_, ?_, ?_, ?_⟩
    · rw [hF, hval]
    · exact formatBits16_digits 64 e.flags hroom [] (by simp)
    · obtain ⟨d, rest, _, _, hd⟩ :=
        formatBits16_head 64 e.flags (Nat.pos_of_ne_zero hf) hroom []
      show formatBits16 64 e.flags [] ≠ []
      rw [hd]
      exact List.cons_ne_nil _ _
    · obtain ⟨d, rest, hd0, hd16, hd⟩ :=
        formatBits16_head 64 e.flags (Nat.pos_of_ne_zero hf) hroom []
      show (formatBits16 64 e.flags []).head? ≠ some '0'
      rw [hd, List.head?_cons]
      intro hc
      exact (digitAt_spec d hd16).2.2 hd0 (Option.some.inj hc)
    · exact formatBits16_value 64 e.flags hroom
  · intro hf
    rw [if_neg (not_not.mpr hf)] at hF
    rw [hF, String.append_empty]

/-- Witness of C7: a mount failure with every field set, and an unmount failure with flags
zero. -/
theorem mountError_Error_self_describing_witness :
    (∃ a b, sampleMountError.Error sampleErrText =
      a ++ (sampleMountError.source ++ ":" ++ sampleMountError.target) ++ b) ∧
    (∃ a b, sampleMountError.Error sampleErrText =
      a ++ (" (via " ++ sampleMountError.procfd ++ ")") ++ b) ∧
    (∃ a b, sampleMountError.Error sampleErrText =
      a ++ (", data: " ++ sampleMountError.data) ++ b) ∧
    (∃ hex : String,
      sampleMountError.Error sampleErrText =
        sampleMountError.op ++ " " ++
          (if sampleMountError.source ≠ "" then
            sampleMountError.source ++ ":" ++ sampleMountError.target
           else sampleMountError.target) ++
          (if sampleMountError.procfd ≠ "" then " (via " ++ sampleMountError.procfd ++ ")"
           else "") ++
          (", flags: 0x" ++ hex) ++
          (if sampleMountError.data ≠ "" then ", data: " ++ sampleMountError.data else "") ++
          (": " ++ sampleErrText sampleMountError.err) ∧
      (∀ c ∈ hex.data, isLowerHexDigit c = true) ∧ hex.data ≠ [] ∧
      hex.data.head? ≠ some '0' ∧ hexValue hex.data = sampleMountError.flags) ∧
    sampleUnmountError.Error sampleErrText =
      sampleUnmountError.op ++ " " ++
        (if sampleUnmountError.source ≠ "" then
          sampleUnmountError.source ++ ":" ++ sampleUnmountError.target
         else sampleUnmountError.target) ++
        (if sampleUnmountError.procfd ≠ "" then " (via " ++ sampleUnmountError.procfd ++ ")"
         else "") ++
        (if sampleUnmountError.data ≠ "" then ", data: " ++ sampleUnmountError.data else "") ++
        (": " ++ sampleErrText sampleUnmountError.err) :=
  ⟨(mountError_Error_self_describing sampleErrText sampleMountError (by decide)).2.2.2.1
      (by decide),
   (mountError_Error_self_describing sampleErrText sampleMountError (by decide)).2.2.2.2.1
      (by decide),
   (mountError_Error_self_describing sampleErrText sampleMountError (by decide)).2.2.2.2.2.1
      (by decide),
   (mountError_Error_self_describing sampleErrText sampleMountError (by decide)).2.2.2.2.2.2.1
      (by decide),
   (mountError_Error_self_describing sampleErrText sampleUnmountError (by decide)).2.2.2.2.2.2.2
      (by decide)⟩

/-! ## Results on the namespace-entry sequence -/

/-- Running the steps `a ++ b` is running `a` and, if every step of `a` succeeded, `b`. -/
theorem runSteps_append (ok : List Step → Step → Bool) (a b done : List Step) :
    runSteps ok (a ++ b) done =
      match runSteps ok a done with
      | (true, d) => runSteps ok b d
      | (false, d) => (false, d) := by
  induction a generalizing done with
  | nil => rfl
  | cons x rest ih =>
    simp only [List.cons_append, runSteps]
    split
    · exact ih (done ++ [x])
    · rfl

/-- The helper `nsexec` in terms of one run over all the steps of the plan. -/
theorem nsexec_eq (ok : List Step → Step → Bool) (plan : Plan) :
    nsexec ok plan =
      match runSteps ok plan.steps [] with
      | (true, d) => (Stage.Exec, d.map Event.step ++ [Event.ready, Event.exec])
      | (false, d) => (Stage.Failed, d.map Event.step ++ [Event.fatal]) := by
  unfold nsexec Plan.steps
  rw [runSteps_append]
  rcases runSteps ok (plan.joins.map Step.join) [] with ⟨b, d⟩
  cases b
  · rfl
  · dsimp only
    rcases runSteps ok (plan.mounts.map Step.mountOp) d with ⟨b2, d2⟩
    cases b2 <;> rfl

/-- A run in which every step succeeded attempted them all, each succeeding after the steps
before it. -/
theorem runSteps_true (ok : List Step → Step → Bool) (todo done : List Step)
    (h : (runSteps ok todo done).1 = true) :
    (runSteps ok todo done).2 = done ++ todo ∧
    ∀ i s, todo[i]? = some s → ok (done ++ todo.take i) s = true := by
  induction todo generalizing done with
  | nil =>
    refine ⟨by simp [runSteps], ?_⟩
    intro i s hi
    simp at hi
  | cons x rest ih =>
    unfold runSteps at h ⊢
    by_cases hx : ok done x = true
    · rw [if_pos hx] at h ⊢
      obtain ⟨h1, h2⟩ := ih (done ++ [x]) h
      refine ⟨by rw [h1]; simp, ?_⟩
      intro i s hi
      cases i with
      | zero =>
        simp only [List.getElem?_cons_zero, Option.some.injEq] at hi
        subst hi
        simpa using hx
      | succ n =>
        simp only [List.getElem?_cons_succ] at hi
        have := h2 n s hi
        simpa using this
    · rw [if_neg hx] at h
      exact absurd h (by simp)

/-- If step `k` would fail after the steps before it, the run stops at a failing step `j` no
later than `k`: it attempted exactly the steps up to `j`. -/
theorem runSteps_false (ok : List Step → Step → Bool) (todo done : List Step) (k : Nat)
    (s : Step) (hk : todo[k]? = some s) (hs : ok (done ++ todo.take k) s = false) :
    ∃ j t, j ≤ k ∧ todo[j]? = some t ∧ ok (done ++ todo.take j) t = false ∧
      runSteps ok todo done = (false, done ++ todo.take (j + 1)) := by
  induction todo generalizing done k with
  | nil => simp at hk
  | cons x rest ih =>
    by_cases hx : ok done x = true
    · cases k with
      | zero =>
        simp only [List.getElem?_cons_zero, Option.some.injEq] at hk
        subst hk
        simp only [List.take_zero, List.append_nil] at hs
        rw [hx] at hs
        cases hs
      | succ n =>
        simp only [List.getElem?_cons_succ] at hk
        have hs2 : ok ((done ++ [x]) ++ rest.take n) s = false := by
          simpa using hs
        obtain ⟨j, t, hj, ht, hf, hr⟩ := ih (done ++ [x]) n hk hs2
        refine ⟨j + 1, t, by omega, by simpa using ht, by simpa using hf, ?_⟩
        unfold runSteps
        rw [if_pos hx, hr]
        simp
    · refine ⟨0, x, Nat.zero_le k, by simp, by simpa using hx, ?_⟩
      unfold runSteps
      rw [if_neg hx]
      simp

/-- The steps attempted, read back from the events of a run. -/
theorem executedSteps_map (d : List Step) (tail : List Event)
    (htail : executedSteps tail = []) :
    executedSteps (d.map Event.step ++ tail) = d := by
  unfold executedSteps at htail ⊢
  rw [List.filterMap_append, htail, List.append_nil, List.filterMap_map]
  induction d with
  | nil => rfl
  | cons x rest ih => simp [List.filterMap_cons, ih]

/-- C9: in the namespace-entry sequence the container entrypoint is executed only after every
step of the plan, joins then mounts, was attempted in order and succeeded; and if the k-th
step fails, the run stops at a failing step no later than k, so no step after k is attempted
and the entrypoint is not executed. -/
theorem nsexec_ordering (ok : List Step → Step → Bool) (plan : Plan) :
    (Event.exec ∈ (nsexec ok plan).2 →
      (nsexec ok plan).2 = plan.steps.map Event.step ++ [Event.ready, Event.exec] ∧
      ∀ i s, plan.steps[i]? = some s → ok (plan.steps.take i) s = true) ∧
    (∀ k s, plan.steps[k]? = some s → ok (plan.steps.take k) s = false →
      ∃ j t, j ≤ k ∧ plan.steps[j]? = some t ∧ ok (plan.steps.take j) t = false ∧
        executedSteps (nsexec ok plan).2 = plan.steps.take (j + 1) ∧
        Event.exec ∉ (nsexec ok plan).2 ∧ (nsexec ok plan).1 = Stage.Failed) := by
  constructor
  · intro hex
    rw [nsexec_eq] at hex ⊢
    have hrun := runSteps_true ok plan.steps []
    rcases hr : runSteps ok plan.steps [] with ⟨b, d⟩
    rw [hr] at hex hrun
    cases b
    · simp at hex
    · obtain ⟨h1, h2⟩ := hrun rfl
      simp only [List.nil_append] at h1 h2
      subst h1
      exact ⟨rfl, h2⟩
  · intro k s hk hs
    obtain ⟨j, t, hj, ht, hf, hr⟩ :=
      runSteps_false ok plan.steps [] k s hk (by simpa using hs)
    refine ⟨j, t, hj, ht, by simpa using hf, ?_⟩
    rw [nsexec_eq, hr]
    refine ⟨executedSteps_map _ _ rfl, ?_, rfl⟩
    intro hmem
    rcases List.mem_append.mp hmem with h1 | h1
    · obtain ⟨x, _, hx⟩ := List.mem_map.mp h1
      cases hx
    · rw [List.mem_singleton] at h1
      cases h1

/-- Witness of C9: a plan whose every step succeeds, and the same plan with a first mount
that fails. -/
theorem nsexec_ordering_witness :
    ((nsexec (fun _ _ => true) samplePlan).2 =
        samplePlan.steps.map Event.step ++ [Event.ready, Event.exec] ∧
      ∀ i s, samplePlan.steps[i]? = some s → (fun _ _ => true) (samplePlan.steps.take i) s = true) ∧
    (∃ j t, j ≤ 2 ∧ samplePlan.steps[j]? = some t ∧
        failFirstMount (samplePlan.steps.take j) t = false ∧
        executedSteps (nsexec failFirstMount samplePlan).2 = samplePlan.steps.take (j + 1) ∧
        Event.exec ∉ (nsexec failFirstMount samplePlan).2 ∧
        (nsexec failFirstMount samplePlan).1 = Stage.Failed) :=
  ⟨(nsexec_ordering (fun _ _ => true) samplePlan).1 (by decide),
   (nsexec_ordering failFirstMount samplePlan).2 2 (Step.mountOp 0) (by decide) (by decide)⟩

end Libcontainer
